import Mathlib

/-!
Shallow embedding of `gym_dobot/envs/dobot_env.py` (class `DobotEnv`),
together with proofs of the behavioural claims about it.

Numpy float arrays are idealised as lists of real numbers; the Euclidean
norm `np.linalg.norm(a - b, axis=-1)` on 1-D arrays becomes the square root
of the sum of squared component differences.  Python `assert` statements
become `Option` guards: a failed assertion is `none`.  Random draws of
`self.np_random` become explicit parameters constrained to the intervals
numpy draws them from (`np.random.uniform(low, high)` samples the half-open
interval `[low, high)`).
-/

namespace GymDobot

/-- Configuration fields of `DobotEnv.__init__` that the modelled methods
read.  `reward_type` is kept as a string because the code branches on the
comparison `self.reward_type == 'sparse'`. -/
structure Config where
  block_gripper : Bool
  has_object : Bool
  target_in_the_air : Bool
  distance_threshold : ℝ
  reward_type : String
  rand_dom : Bool

/-- Sum of squared component differences of two vectors (the squared
Euclidean norm of `a - b` when the shapes agree). -/
def sumSqDiff (a b : List ℝ) : ℝ :=
  ((a.zip b).map (fun p => (p.1 - p.2) ^ 2)).sum

/-- Euclidean norm of `a - b`: the value `np.linalg.norm(goal_a - goal_b, axis=-1)`
computes on 1-D arrays of equal shape. -/
noncomputable def euclid (a b : List ℝ) : ℝ :=
  Real.sqrt (sumSqDiff a b)

/-- `goal_distance(goal_a, goal_b)` (module level, dobot_env.py lines 6-8):
asserts the shapes agree, then returns the Euclidean norm of the
difference. -/
noncomputable def goal_distance (a b : List ℝ) : Option ℝ :=
  if a.length = b.length then some (euclid a b) else none

/-- `DobotEnv.compute_reward(achieved_goal, goal, info)` (lines 55-61):
`d = goal_distance(achieved_goal, goal)`; sparse reward is
`-(d > threshold).astype(np.float32)`, dense reward is `-d`. -/
noncomputable def compute_reward (cfg : Config) (achieved goal : List ℝ) : Option ℝ :=
  (goal_distance achieved goal).map (fun d =>
    if cfg.reward_type = "sparse" then
      -(if d > cfg.distance_threshold then (1 : ℝ) else 0)
    else
      -d)

/-- `DobotEnv._is_success(achieved_goal, desired_goal)` (lines 219-221):
`(d < threshold).astype(np.float32)`. -/
noncomputable def is_success (cfg : Config) (achieved desired : List ℝ) : Option ℝ :=
  (goal_distance achieved desired).map (fun d =>
    if d < cfg.distance_threshold then (1 : ℝ) else 0)

theorem goal_distance_eq (a b : List ℝ) (h : a.length = b.length) :
    goal_distance a b = some (euclid a b) := by
  simp [goal_distance, h]

/-- C1: for goals of equal shape, sparse `compute_reward` returns exactly one
of `{0, -1}`, returning `-1` iff the Euclidean distance exceeds the
threshold (distance equal to the threshold gives `0`); dense
`compute_reward` returns exactly the negated Euclidean distance. -/
theorem compute_reward_cases (cfg : Config) (a b : List ℝ)
    (h : a.length = b.length) :
    (cfg.reward_type = "sparse" →
      (compute_reward cfg a b = some 0 ∨ compute_reward cfg a b = some (-1)) ∧
      (compute_reward cfg a b = some (-1) ↔ euclid a b > cfg.distance_threshold) ∧
      (euclid a b = cfg.distance_threshold → compute_reward cfg a b = some 0)) ∧
    (cfg.reward_type = "dense" → compute_reward cfg a b = some (-(euclid a b))) := by
  have hd : goal_distance a b = some (euclid a b) := goal_distance_eq a b h
  constructor
  · intro hs
    by_cases hgt : euclid a b > cfg.distance_threshold
    · refine ⟨Or.inr ?_, ⟨fun _ => hgt, fun _ => ?_⟩, fun heq => ?_⟩
      · simp [compute_reward, hd, hs, hgt]
      · simp [compute_reward, hd, hs, hgt]
      · exact absurd hgt (by simp [heq])
    · refine ⟨Or.inl ?_, ⟨fun hc => ?_, fun hc => absurd hc hgt⟩, fun _ => ?_⟩
      · simp [compute_reward, hd, hs, hgt]
      · exact absurd hc (by simp [compute_reward, hd, hs, hgt])
      · simp [compute_reward, hd, hs, hgt]
  · intro hdense
    have hs : ¬ cfg.reward_type = "sparse" := by
      rw [hdense]; decide
    simp [compute_reward, hd, hs]

/-- Witness for C1: with threshold `0.05`, achieved `(0,0,0)` and desired
`(0,0,0.06)` the sparse reward is `-1`, and with desired `(0,0,0.04)` it
is `0`; the dense reward at `(0,0,0.06)` is the negated distance. -/
theorem compute_reward_cases_witness :
    compute_reward ⟨false, true, false, 0.05, "sparse", false⟩
      [0, 0, 0] [0, 0, 0.06] = some (-1) ∧
    compute_reward ⟨false, true, false, 0.05, "sparse", false⟩
      [0, 0, 0] [0, 0, 0.04] = some 0 ∧
    compute_reward ⟨false, true, false, 0.05, "dense", false⟩
      [0, 0, 0] [0, 0, 0.06] =
        some (-(euclid [0, 0, 0] [0, 0, 0.06])) := by
  have h1 := compute_reward_cases ⟨false, true, false, 0.05, "sparse", false⟩
    [0, 0, 0] [0, 0, 0.06] (by simp)
  have h2 := compute_reward_cases ⟨false, true, false, 0.05, "sparse", false⟩
    [0, 0, 0] [0, 0, 0.04] (by simp)
  have h3 := compute_reward_cases ⟨false, true, false, 0.05, "dense", false⟩
    [0, 0, 0] [0, 0, 0.06] (by simp)
  have hgt : euclid [0, 0, 0] [(0 : ℝ), 0, 0.06] > (0.05 : ℝ) := by
    have : (0.05 : ℝ) < Real.sqrt (sumSqDiff [0, 0, 0] [0, 0, 0.06]) := by
      rw [Real.lt_sqrt (by norm_num)]
      simp [sumSqDiff]
      norm_num
    simpa [euclid] using this
  have hlt : ¬ (euclid [0, 0, 0] [(0 : ℝ), 0, 0.04] > (0.05 : ℝ)) := by
    have : Real.sqrt (sumSqDiff [0, 0, 0] [0, 0, 0.04]) < (0.05 : ℝ) := by
      rw [Real.sqrt_lt' (by norm_num)]
      simp [sumSqDiff]
      norm_num
    simp only [euclid, gt_iff_lt, not_lt]
    exact le_of_lt this
  refine ⟨(h1.1 rfl).2.1.mpr hgt, ?_, h3.2 rfl⟩
  rcases (h2.1 rfl).1 with h0 | hm1
  · exact h0
  · exact absurd ((h2.1 rfl).2.1.mp hm1) hlt

/-- C2: for goals of equal shape, `_is_success` returns `1.0` iff the
Euclidean distance is strictly below the threshold and `0.0` otherwise;
distance exactly equal to the threshold gives `0.0`. -/
theorem is_success_iff (cfg : Config) (a b : List ℝ)
    (h : a.length = b.length) :
    (is_success cfg a b = some 1 ∨ is_success cfg a b = some 0) ∧
    (is_success cfg a b = some 1 ↔ euclid a b < cfg.distance_threshold) ∧
    (euclid a b = cfg.distance_threshold → is_success cfg a b = some 0) := by
  have hd : goal_distance a b = some (euclid a b) := goal_distance_eq a b h
  by_cases hlt : euclid a b < cfg.distance_threshold
  · refine ⟨Or.inl ?_, ⟨fun _ => hlt, fun _ => ?_⟩, fun heq => ?_⟩
    · simp [is_success, hd, hlt]
    · simp [is_success, hd, hlt]
    · exact absurd hlt (by simp [heq])
  · refine ⟨Or.inr ?_, ⟨fun hc => ?_, fun hc => absurd hc hlt⟩, fun _ => ?_⟩
    · simp [is_success, hd, hlt]
    · exact absurd hc (by simp [is_success, hd, hlt])
    · simp [is_success, hd, hlt]

/-- Witness for C2: with threshold `0.05`, achieved `(0,0,0)` and desired
`(0,0,0.04)` give success `1.0`; desired `(0,0,0.06)` gives `0.0`. -/
theorem is_success_iff_witness :
    is_success ⟨false, true, false, 0.05, "sparse", false⟩
      [0, 0, 0] [0, 0, 0.04] = some 1 ∧
    is_success ⟨false, true, false, 0.05, "sparse", false⟩
      [0, 0, 0] [0, 0, 0.06] = some 0 := by
  have h1 := is_success_iff ⟨false, true, false, 0.05, "sparse", false⟩
    [0, 0, 0] [0, 0, 0.04] (by simp)
  have h2 := is_success_iff ⟨false, true, false, 0.05, "sparse", false⟩
    [0, 0, 0] [0, 0, 0.06] (by simp)
  have hlt : euclid [0, 0, 0] [(0 : ℝ), 0, 0.04] < (0.05 : ℝ) := by
    have : Real.sqrt (sumSqDiff [0, 0, 0] [0, 0, 0.04]) < (0.05 : ℝ) := by
      rw [Real.sqrt_lt' (by norm_num)]
      simp [sumSqDiff]
      norm_num
    simpa [euclid] using this
  have hge : ¬ (euclid [0, 0, 0] [(0 : ℝ), 0, 0.06] < (0.05 : ℝ)) := by
    have : (0.05 : ℝ) < Real.sqrt (sumSqDiff [0, 0, 0] [0, 0, 0.06]) := by
      rw [Real.lt_sqrt (by norm_num)]
      simp [sumSqDiff]
      norm_num
    simp only [euclid, not_lt]
    exact le_of_lt this
  refine ⟨h1.2.1.mpr hlt, ?_⟩
  rcases h2.1 with hone | hzero
  · exact absurd (h2.2.1.mp hone) hge
  · exact hzero

/-- `DobotEnv._set_action(action)` (lines 72-89), value level.  The code
asserts `action.shape == (4,)`, copies the action, scales the first three
components by `0.05` in place, fixes `rot_ctrl = [-1, 0, 0, 0]`, builds
`gripper_ctrl = np.array([g, -g])` from `g = action[3]`, asserts its shape
is `(2,)`, zeroes it (`np.zeros_like`) when `block_gripper` holds, and
concatenates `[pos_ctrl, rot_ctrl, gripper_ctrl]` into the 9-vector handed
to `utils.ctrl_set_action` and `utils.mocap_set_action` (external).  A
failed assertion is `none`. -/
def set_action (cfg : Config) (action : List ℝ) : Option (List ℝ) :=
  if action.length = 4 then
    let pos_ctrl := (action.take 3).map (fun v => v * 0.05)
    let g := action.getD 3 0
    let rot_ctrl : List ℝ := [-1, 0, 0, 0]
    let gripper0 : List ℝ := [g, -g]
    if gripper0.length = 2 then
      let gripper_ctrl := if cfg.block_gripper then List.replicate gripper0.length 0 else gripper0
      some (pos_ctrl ++ rot_ctrl ++ gripper_ctrl)
    else none
  else none

/-- C3: for every 4-vector action, the gripper component (entries 7 and 8)
of the 9-vector built by `_set_action` is `[0, 0]` when `block_gripper`
holds, regardless of the fourth action entry, and `[g, -g]` with
`g = action[3]` otherwise. -/
theorem set_action_gripper (cfg : Config) (a0 a1 a2 a3 : ℝ) :
    (set_action cfg [a0, a1, a2, a3]).map (fun l => l.drop 7) =
      some (if cfg.block_gripper then [0, 0] else [a3, -a3]) := by
  by_cases hb : cfg.block_gripper <;>
    simp [set_action, hb, List.replicate]

/-- C4: for every 4-vector action, `_set_action` produces a 9-vector laid
out as position (3 entries), rotation (4 entries), gripper (2 entries),
where the position entries are the first three action entries each times
`0.05` and the rotation is the fixed quaternion `[-1, 0, 0, 0]`. -/
theorem set_action_layout (cfg : Config) (a0 a1 a2 a3 : ℝ) :
    ∃ gr : List ℝ, gr.length = 2 ∧
      set_action cfg [a0, a1, a2, a3] =
        some ([a0 * 0.05, a1 * 0.05, a2 * 0.05] ++ [-1, 0, 0, 0] ++ gr) := by
  refine ⟨if cfg.block_gripper then [0, 0] else [a3, -a3], ?_, ?_⟩
  · by_cases hb : cfg.block_gripper <;> simp [hb]
  · by_cases hb : cfg.block_gripper <;>
      simp [set_action, hb, List.replicate]

/-- C8: `_set_action` hits an assertion failure exactly on the inputs whose
shape is not `(4,)`; on every 4-vector the assertions pass and the
9-vector is produced (the second assertion, on the gripper pair, always
holds by construction). -/
theorem set_action_isSome_iff (cfg : Config) (action : List ℝ) :
    (set_action cfg action).isSome ↔ action.length = 4 := by
  by_cases h : action.length = 4 <;> simp [set_action, h]

/-- Addressed store of numpy buffers: `buf` maps an address to the array it
holds, addresses below `next` are allocated.  Models which arrays share
storage during `_set_action`. -/
structure Mem where
  buf : Nat → List ℝ
  next : Nat

/-- Overwrite the buffer at address `a`. -/
def writeBuf (m : Mem) (a : Nat) (v : List ℝ) : Mem :=
  { m with buf := fun j => if j = a then v else m.buf j }

/-- Allocate a fresh buffer holding `v`, returning its address. -/
def allocBuf (m : Mem) (v : List ℝ) : Mem × Nat :=
  ({ buf := fun j => if j = m.next then v else m.buf j, next := m.next + 1 }, m.next)

/-- `DobotEnv._set_action` (lines 72-89) at the buffer level.  The caller's
array lives at address `caller`.  `action = action.copy()` allocates a
fresh buffer; `pos_ctrl *= 0.05` writes through a view into that copy
(first three slots scaled, rest untouched); `rot_ctrl`, `gripper_ctrl` and
the final `np.concatenate` each build new arrays.  Returns the store after
the call and the emitted 9-vector (`none` on assertion failure). -/
def set_action_mem (cfg : Config) (m : Mem) (caller : Nat) :
    Mem × Option (List ℝ) :=
  let actionVal := m.buf caller
  if actionVal.length = 4 then
    let p := allocBuf m actionVal
    let m1 := p.1
    let copyA := p.2
    let m2 := writeBuf m1 copyA
      (((m1.buf copyA).take 3).map (fun v => v * 0.05) ++ (m1.buf copyA).drop 3)
    let a := m2.buf copyA
    let g := a.getD 3 0
    let gripper : List ℝ := if cfg.block_gripper then [0, 0] else [g, -g]
    (m2, some (a.take 3 ++ [-1, 0, 0, 0] ++ gripper))
  else (m, none)

/-- C9: `_set_action` leaves the caller's action buffer unchanged — the
scaling and overwriting happen on the freshly allocated copy, so after the
call the buffer at the caller's address holds exactly the values it held
before. -/
theorem set_action_mem_frame (cfg : Config) (m : Mem) (caller : Nat)
    (h : caller < m.next) :
    ((set_action_mem cfg m caller).1).buf caller = m.buf caller := by
  have hne : caller ≠ m.next := Nat.ne_of_lt h
  by_cases h4 : (m.buf caller).length = 4
  · simp [set_action_mem, h4, writeBuf, allocBuf, hne]
  · simp [set_action_mem, h4]

/-- Witness for C9: a store whose only allocated buffer holds `[1, 2, 3, 4]`
still holds `[1, 2, 3, 4]` at that address after `_set_action`. -/
theorem set_action_mem_frame_witness :
    ((set_action_mem ⟨false, true, false, 0.05, "sparse", false⟩
        ⟨fun _ => [1, 2, 3, 4], 1⟩ 0).1).buf 0 = [1, 2, 3, 4] := by
  have h := set_action_mem_frame ⟨false, true, false, 0.05, "sparse", false⟩
    ⟨fun _ => [1, 2, 3, 4], 1⟩ 0 (by norm_num)
  simpa using h

/-- An axis-aligned x/y sampling rectangle with a base height. -/
structure Region where
  xlow : ℝ
  xup : ℝ
  ylow : ℝ
  yup : ℝ
  base : ℝ

/-- The rectangle `DobotEnv._reset_sim` (lines 178-188) draws the object
x,y position from: `pos = [0.8, 0.685, 0.22725]`,
`size = [0.335, 0.165, 0.21225] - 0.025`, `up = pos + size`,
`low = pos - size`, x uniform in `[low[0], up[0])`, y uniform in
`[low[1], up[1])`, and the height written into `object_qpos[2]` is
`0.032`. -/
def reset_sim_region : Region :=
  { xlow := 0.8 - (0.335 - 0.025)
    xup := 0.8 + (0.335 - 0.025)
    ylow := 0.685 - (0.165 - 0.025)
    yup := 0.685 + (0.165 - 0.025)
    base := 0.032 }

/-- The rectangle `DobotEnv._sample_goal` (lines 205-209) draws the goal
x,y from: `pos = [0.8, 0.685, 0.22725]`,
`size = [0.335, 0.165, 0.21225] - 0.025`, `up = pos + size`,
`low = pos - size`, x uniform in `[low[0], up[0])`, y uniform in
`[low[1], up[1])`, and base height entry `0.032`. -/
def sample_goal_region : Region :=
  { xlow := 0.8 - (0.335 - 0.025)
    xup := 0.8 + (0.335 - 0.025)
    ylow := 0.685 - (0.165 - 0.025)
    yup := 0.685 + (0.165 - 0.025)
    base := 0.032 }

/-- C6: the x,y sampling rectangle of `_sample_goal` is identical to the
object-placement rectangle of `_reset_sim`: both are centred at
`(0.8, 0.685)` with half-extents `(0.335 - 0.025, 0.165 - 0.025)`, and
both use base height `0.032`. -/
theorem regions_agree :
    reset_sim_region = sample_goal_region ∧
    (reset_sim_region.xlow + reset_sim_region.xup) / 2 = 0.8 ∧
    (reset_sim_region.ylow + reset_sim_region.yup) / 2 = 0.685 ∧
    (reset_sim_region.xup - reset_sim_region.xlow) / 2 = 0.335 - 0.025 ∧
    (reset_sim_region.yup - reset_sim_region.ylow) / 2 = 0.165 - 0.025 ∧
    reset_sim_region.base = 0.032 ∧ sample_goal_region.base = 0.032 := by
  refine ⟨rfl, ?_, ?_, ?_, ?_, rfl, rfl⟩ <;> norm_num [reset_sim_region]

/-- The random draws `_sample_goal` consumes: `ux`, `uy` from the rectangle
(`np.random.uniform` on a half-open interval), `coin` from
`self.np_random.uniform()` over `[0, 1)` for the 50% test, and `uz` from
`np.random.uniform(0, 0.25)`, i.e. `[0, 0.25)`. -/
structure GoalDraws where
  ux : ℝ
  uy : ℝ
  coin : ℝ
  uz : ℝ

/-- `DobotEnv._sample_goal` (lines 194-217): the goal is
`[ux, uy, 0.032]`; if `has_object` holds and `target_in_the_air` holds and
the coin is below `0.5`, the height gets `uz` added; if `has_object` fails,
the height gets `uz` added unconditionally. -/
noncomputable def sample_goal (cfg : Config) (d : GoalDraws) : ℝ × ℝ × ℝ :=
  let z :=
    if cfg.has_object then
      if cfg.target_in_the_air ∧ d.coin < 0.5 then 0.032 + d.uz else 0.032
    else 0.032 + d.uz
  (d.ux, d.uy, z)

/-- Counterexample for C5: with `has_object` false and the admissible draw
`uz = 0` (numpy's `uniform(0, 0.25)` can return its lower endpoint `0.0`),
the sampled goal height is exactly `0.032`, not strictly greater. -/
theorem sample_goal_height_counterexample :
    ((0 : ℝ) ≤ 0 ∧ (0 : ℝ) < 0.25) ∧
    (sample_goal ⟨false, false, false, 0.05, "sparse", false⟩
        ⟨0.8, 0.685, 0.7, 0⟩).2.2 = 0.032 ∧
    ¬ ((sample_goal ⟨false, false, false, 0.05, "sparse", false⟩
        ⟨0.8, 0.685, 0.7, 0⟩).2.2 > 0.032) := by
  refine ⟨⟨le_refl 0, by norm_num⟩, ?_, ?_⟩ <;> simp [sample_goal]

/-- C5 amended: when `has_object` is false the uniform offset drawn from
`[0, 0.25)` is added to the base height unconditionally, so every sampled
goal has height exactly `0.032 + uz`; the height is therefore at least
`0.032`, and strictly greater than `0.032` exactly when the drawn offset
is nonzero. -/
theorem sample_goal_height_amended (cfg : Config) (d : GoalDraws)
    (hobj : cfg.has_object = false) (h0 : 0 ≤ d.uz) (h1 : d.uz < 0.25) :
    (sample_goal cfg d).2.2 = 0.032 + d.uz ∧
    0.032 ≤ (sample_goal cfg d).2.2 ∧
    (0.032 < (sample_goal cfg d).2.2 ↔ 0 < d.uz) := by
  have hz : (sample_goal cfg d).2.2 = 0.032 + d.uz := by
    simp [sample_goal, hobj]
  refine ⟨hz, ?_, ?_⟩
  · rw [hz]; linarith
  · rw [hz]; constructor <;> intro hc <;> linarith

/-- Witness for C5 (amended): with `has_object` false and offset draw
`0.1 ∈ [0, 0.25)`, the goal height is `0.032 + 0.1`. -/
theorem sample_goal_height_amended_witness :
    (sample_goal ⟨false, false, false, 0.05, "sparse", false⟩
        ⟨0.8, 0.685, 0.7, 0.1⟩).2.2 = 0.032 + 0.1 :=
  (sample_goal_height_amended ⟨false, false, false, 0.05, "sparse", false⟩
    ⟨0.8, 0.685, 0.7, 0.1⟩ rfl (by norm_num) (by norm_num)).1

/-- `DobotEnv._reset_sim` (lines 150-192).  `set_state(initial_state)` and,
when a viewer exists and `rand_dom` holds, the geometry / camera / light
randomisation only call external modders and do not affect the returned
flag; `hasViewer` abstracts `self.viewer != None`.  When `has_object`
holds, the code asserts the shape of `get_joint_qpos('object0:joint')` is
`(7,)` (`none` on failure), overwrites entries 0 and 1 with the uniform
x,y draws `ox, oy` and entry 2 with `0.032`, and writes the result back.
It then calls `forward()` and returns `True` on every path. -/
def reset_sim (cfg : Config) (hasViewer : Bool) (objectQpos : List ℝ)
    (ox oy : ℝ) : Option (List ℝ × Bool) :=
  if cfg.has_object then
    if objectQpos.length = 7 then
      some (((objectQpos.set 0 ox).set 1 oy).set 2 0.032, true)
    else none
  else some (objectQpos, true)

/-- C7: `_reset_sim` returns `True` on every call, for every configuration
(with or without an object, viewer, or domain randomisation); the only
`none` path is the shape assertion on the 7-element free-joint pose the
simulator always provides. -/
theorem reset_sim_true (cfg : Config) (hasViewer : Bool)
    (objectQpos : List ℝ) (ox oy : ℝ)
    (h : objectQpos.length = 7) :
    ∃ q : List ℝ, reset_sim cfg hasViewer objectQpos ox oy = some (q, true) := by
  by_cases ho : cfg.has_object
  · exact ⟨((objectQpos.set 0 ox).set 1 oy).set 2 0.032,
      by simp [reset_sim, ho, h]⟩
  · exact ⟨objectQpos, by simp [reset_sim, ho]⟩

/-- Witness for C7: with and without an object, on a 7-element pose the
reset reports success. -/
theorem reset_sim_true_witness :
    (∃ q : List ℝ, reset_sim ⟨false, true, false, 0.05, "sparse", false⟩
      true [0, 0, 0, 1, 0, 0, 0] 0.8 0.685 = some (q, true)) ∧
    (∃ q : List ℝ, reset_sim ⟨false, false, false, 0.05, "sparse", true⟩
      false [0, 0, 0, 1, 0, 0, 0] 0.8 0.685 = some (q, true)) :=
  ⟨reset_sim_true ⟨false, true, false, 0.05, "sparse", false⟩
      true [0, 0, 0, 1, 0, 0, 0] 0.8 0.685 (by simp),
   reset_sim_true ⟨false, false, false, 0.05, "sparse", true⟩
      false [0, 0, 0, 1, 0, 0, 0] 0.8 0.685 (by simp)⟩

/-- `DobotEnv._render_callback` (lines 143-148):
`sites_offset = (site_xpos - site_pos).copy()` (per-site difference between
the scene-frame position and the model position),
`site_id = site_name2id('target0')`, and
`site_pos[site_id] = goal - sites_offset[0]` — the offset taken is that of
the site at index 0, whatever `site_id` is.  Site positions and the goal
are 3-vectors. -/
def render_callback (siteXpos sitePos : List (ℝ × ℝ × ℝ)) (goal : ℝ × ℝ × ℝ)
    (targetId : Nat) : List (ℝ × ℝ × ℝ) :=
  let sitesOffset := (siteXpos.zip sitePos).map (fun p => p.1 - p.2)
  sitePos.set targetId (goal - sitesOffset.getD 0 (0, 0, 0))

/-- C10: `_render_callback` writes `goal - (site_xpos[0] - site_pos[0])`
into the target site's model position — the offset of the site at index 0,
not of the target site itself — so the compensation can be wrong whenever
the target site is not the first site: there are concrete scenes with the
target at index 1 where the written value differs from
`goal - (site_xpos[id] - site_pos[id])`. -/
theorem render_callback_first_site_offset :
    (∀ (siteXpos sitePos : List (ℝ × ℝ × ℝ)) (goal : ℝ × ℝ × ℝ)
        (targetId : Nat),
      0 < siteXpos.length → 0 < sitePos.length → targetId < sitePos.length →
      (render_callback siteXpos sitePos goal targetId).getD targetId (0, 0, 0) =
        goal - (siteXpos.getD 0 (0, 0, 0) - sitePos.getD 0 (0, 0, 0))) ∧
    (∃ (siteXpos sitePos : List (ℝ × ℝ × ℝ)) (goal : ℝ × ℝ × ℝ)
        (targetId : Nat),
      targetId ≠ 0 ∧ targetId < sitePos.length ∧
      (render_callback siteXpos sitePos goal targetId).getD targetId (0, 0, 0) ≠
        goal - (siteXpos.getD targetId (0, 0, 0) -
          sitePos.getD targetId (0, 0, 0))) := by
  constructor
  · intro siteXpos sitePos goal targetId hx hp ht
    match siteXpos, sitePos with
    | x :: xs, p :: ps =>
      simp only [render_callback, List.zip_cons_cons, List.map_cons,
        List.getD_cons_zero]
      rw [List.getD_eq_getElem?_getD, List.getElem?_set_self (by simpa using ht),
        Option.getD_some]
  · refine ⟨[(1, 0, 0), (2, 0, 0)], [(0, 0, 0), (0, 0, 0)], (0, 0, 0), 1,
      by norm_num, by norm_num, ?_⟩
    simp only [render_callback, List.zip_cons_cons, List.map_cons,
      List.getD_cons_zero]
    rw [List.getD_eq_getElem?_getD, List.getElem?_set_self (by norm_num),
      Option.getD_some]
    intro hcontra
    have h1 := congrArg (fun v => v.1) hcontra
    simp only [Prod.fst_sub] at h1
    norm_num [List.getD_cons_succ, List.getD_cons_zero] at h1

/-- Witness for C10: in a two-site scene with the target at index 1, the
value written for the target is the goal minus the offset of site 0. -/
theorem render_callback_first_site_offset_witness :
    (render_callback [((1 : ℝ), (0 : ℝ), (0 : ℝ)), (2, 0, 0)]
        [(0, 0, 0), (0, 0, 0)] (0, 0, 0) 1).getD 1 (0, 0, 0) =
      (0, 0, 0) - (((1 : ℝ), (0 : ℝ), (0 : ℝ)) - ((0 : ℝ), (0 : ℝ), (0 : ℝ))) := by
  have h := render_callback_first_site_offset.1
    [((1 : ℝ), (0 : ℝ), (0 : ℝ)), (2, 0, 0)] [(0, 0, 0), (0, 0, 0)] (0, 0, 0) 1
    (by norm_num) (by norm_num) (by norm_num)
  simpa using h

end GymDobot
